import Mathlib

/-!
Verification development for the Anarchy-GPU-Passthrough remote
command-virtualization protocol.

The definitions below are a shallow embedding of the C++ sources:
  * `src/include/common/network/protocol.hpp` (wire format),
  * `src/src/common/network/zmq_wrapper.cpp` together with
    `src/include/common/network/zmq_wrapper.hpp` (transport),
  * `src/src/client/vulkan_icd.cpp` (call proxy / resource registry).

Bytes are modelled as `Nat`, timestamps as `Int` milliseconds on the
steady clock.  The external zlib / LZ4 codecs and the zmq socket are
modelled as environment parameters (oracles), since their code is not
part of this repository; everything that the code of the repository itself does
with their results is transcribed literally.
-/

/-- Wire message types, `protocol.hpp` lines 12-38. -/
inductive MessageType where
  | CONNECT | DISCONNECT | HEARTBEAT
  | VK_CREATE_INSTANCE | VK_CREATE_DEVICE | VK_CREATE_SWAPCHAIN
  | VK_CREATE_COMMAND_POOL | VK_CREATE_COMMAND_BUFFER
  | VK_BEGIN_COMMAND_BUFFER | VK_END_COMMAND_BUFFER
  | VK_QUEUE_SUBMIT | VK_ACQUIRE_NEXT_IMAGE | VK_PRESENT
  | FRAME_DATA | FRAME_ACK | FRAME_REQUEST
  | ERROR | RESET
  deriving DecidableEq, Repr

/-- Payload compression codecs, `protocol.hpp` lines 40-44. -/
inductive CompressionType where
  | NONE | ZLIB | LZ4
  deriving DecidableEq, Repr

/-- Compression effort levels, `zmq_wrapper.hpp` lines 20-24. -/
inductive CompressionLevel where
  | FAST | BALANCED | MAX
  deriving DecidableEq, Repr

/-- Model of `MessageHeader`, `protocol.hpp` lines 47-53.  `size` is documented as
the size of the payload; `sequence` is the correlation id. -/
structure MessageHeader where
  type : MessageType
  size : Nat
  sequence : Nat
  timestamp : Nat
  compression : CompressionType
  deriving DecidableEq, Repr

/-- Model of `Message`, `protocol.hpp` lines 78-81: header plus opaque payload bytes. -/
structure Message where
  header : MessageHeader
  payload : List Nat
  deriving DecidableEq, Repr

/-- Model of `ZMQWrapper::MAX_MESSAGE_SIZE`, `zmq_wrapper.hpp` line 84 (100 MiB). -/
def MAX_MESSAGE_SIZE : Nat := 1024 * 1024 * 100

/-- Model of `ZMQWrapper::DEFAULT_HEARTBEAT_INTERVAL`, `zmq_wrapper.hpp` line 86 (ms). -/
def DEFAULT_HEARTBEAT_INTERVAL : Int := 1000

/-- Model of `ZMQWrapper::DEFAULT_MAX_RECONNECT_ATTEMPTS`, `zmq_wrapper.hpp` line 87. -/
def DEFAULT_MAX_RECONNECT_ATTEMPTS : Nat := 5

/-- Model of `ZMQWrapper::DEFAULT_RECONNECT_DELAY`, `zmq_wrapper.hpp` line 88 (ms). -/
def DEFAULT_RECONNECT_DELAY : Nat := 1000

/-- Connection states, `zmq_wrapper.hpp` lines 74-79. -/
inductive ConnectionState where
  | DISCONNECTED | CONNECTING | CONNECTED | RECONNECTING
  deriving DecidableEq, Repr

/-- The configuration members of `ZMQWrapper` that the transport logic
reads: `compression_type_` (default `ZLIB`), `compression_level_`
(default `BALANCED`), `adaptive_compression_` (default `false`) and
`max_message_size_` (default `MAX_MESSAGE_SIZE`), `zmq_wrapper.hpp`
lines 136, 143-145. -/
structure WrapperConfig where
  compressionType : CompressionType
  compressionLevel : CompressionLevel
  adaptiveCompression : Bool
  maxMessageSize : Nat
  deriving DecidableEq, Repr

/-- The default-constructed configuration of a `ZMQWrapper`. -/
def defaultConfig : WrapperConfig :=
  { compressionType := CompressionType.ZLIB
    compressionLevel := CompressionLevel.BALANCED
    adaptiveCompression := false
    maxMessageSize := MAX_MESSAGE_SIZE }

/-- A `network_speed_history_` entry: `(steady-clock timestamp in ms, bytes)`,
`zmq_wrapper.hpp` line 149. -/
def SpeedSample : Type := Int × Nat

/-- Model of `ZMQWrapper::cleanupOldSpeedHistory`, `zmq_wrapper.cpp` lines 222-234:
erase every history entry whose timestamp is before `now - 1 s`. -/
def cleanupOldSpeedHistory (now : Int) (hist : List (Int × Nat)) : List (Int × Nat) :=
  hist.filter (fun m => ¬ (m.1 < now - 1000))

/-- Model of `ZMQWrapper::getCurrentNetworkSpeed`, `zmq_wrapper.cpp` lines 209-220:
clean up old history entries and return the plain sum of the byte counts
of all remaining entries. -/
def getCurrentNetworkSpeed (now : Int) (hist : List (Int × Nat)) : Nat :=
  ((cleanupOldSpeedHistory now hist).map Prod.snd).sum

/-- Model of `ZMQWrapper::updateNetworkSpeed`, `zmq_wrapper.cpp` lines 439-442:
append `(now, bytes_sent)` to the history. -/
def updateNetworkSpeed (now : Int) (hist : List (Int × Nat)) (bytesSent : Nat) :
    List (Int × Nat) :=
  hist ++ [(now, bytesSent)]

/-- Model of `ZMQWrapper::shouldCompressMessage`, `zmq_wrapper.cpp` lines 323-330.
With adaptive compression off the only test is `message_size > 1024`;
with it on, additionally the current network speed must be below ten
times the message size. -/
def shouldCompressMessage (cfg : WrapperConfig) (now : Int)
    (hist : List (Int × Nat)) (messageSize : Nat) : Bool :=
  if ¬ cfg.adaptiveCompression then
    decide (messageSize > 1024)
  else
    decide (messageSize > 1024) &&
      decide (getCurrentNetworkSpeed now hist < messageSize * 10)

/-- Model of `ZMQWrapper::selectCompressionType`, `zmq_wrapper.cpp` lines 332-340:
a pinned (non-`NONE`) `compression_type_` wins; otherwise ZLIB below
1 MiB and LZ4 at or above it. -/
def selectCompressionType (cfg : WrapperConfig) (messageSize : Nat) : CompressionType :=
  if cfg.compressionType ≠ CompressionType.NONE then
    cfg.compressionType
  else if messageSize < 1024 * 1024 then
    CompressionType.ZLIB
  else
    CompressionType.LZ4

/-- The codec branch `ZMQWrapper::compressData` (and `decompressData`)
actually takes, `zmq_wrapper.cpp` lines 344 and 405: the LZ4 path runs
exactly when `compression_type_ == LZ4`, every other configured value
(including `NONE`) runs the zlib path. -/
def appliedCodec (cfg : WrapperConfig) : CompressionType :=
  if cfg.compressionType = CompressionType.LZ4 then CompressionType.LZ4
  else CompressionType.ZLIB

/-- Environment model of the external zlib / LZ4 compressors: given the
codec that runs, the configured level, the input bytes and the output
buffer capacity, return the bytes written (`[]` models the failure
return value `0` of `compressData`). -/
def CompressOracle : Type :=
  CompressionType → CompressionLevel → List Nat → Nat → List Nat

/-- Environment model of the external decompressors, same conventions as
`CompressOracle`. -/
def DecompressOracle : Type :=
  CompressionType → List Nat → Nat → List Nat

/-- Model of `ZMQWrapper::compressData`, `zmq_wrapper.cpp` lines 342-401: dispatch
on `compression_type_` (`appliedCodec`) and run the external codec. -/
def compressData (cfg : WrapperConfig) (oracle : CompressOracle)
    (input : List Nat) (outputSize : Nat) : List Nat :=
  oracle (appliedCodec cfg) cfg.compressionLevel input outputSize

/-- Model of `ZMQWrapper::decompressData`, `zmq_wrapper.cpp` lines 403-437:
dispatch on `compression_type_` (`appliedCodec`, not on the inbound
`compression` field of the inbound header) and run the external codec. -/
def decompressData (cfg : WrapperConfig) (oracle : DecompressOracle)
    (input : List Nat) (outputSize : Nat) : List Nat :=
  oracle (appliedCodec cfg) input outputSize

/-- The socket-level environment of one `sendMessage` call: the current
steady-clock time and whether the two `socket_->send` operations (header
segment, payload segment) succeed. -/
structure SendEnv where
  now : Int
  headerOk : Bool
  payloadOk : Bool

/-- Observable outcome of one `sendMessage` call.  `wire` is the
header/payload frame handed to the socket (`none` when the call is
rejected before any socket operation); `errors` lists the `handleError`
invocations in order; `statsUpdates` records the arguments of each
`updateCompressionStats` call; `hist` is the network-speed history after
the call. -/
structure SendOutcome where
  ok : Bool
  wire : Option (MessageHeader × List Nat)
  errors : List String
  statsUpdates : List (Nat × Nat)
  hist : List (Int × Nat)
  deriving DecidableEq, Repr

/-- Model constant for `sizeof(MessageHeader)` as used in the byte
accounting of `zmq_wrapper.cpp` lines 131 and 144 (its concrete value is
layout/padding dependent; no claim depends on it). -/
def sizeofMessageHeader : Nat := 24

/-- The condition under which an accepted `sendMessage` call replaces
the payload with its compressed form, `zmq_wrapper.cpp` lines 109-117:
`shouldCompressMessage` approves, and the compressor (run into an output
buffer of the original size) wrote more than 0 and strictly fewer bytes
than the original. -/
def compressionKept (cfg : WrapperConfig) (oracle : CompressOracle) (now : Int)
    (hist : List (Int × Nat)) (message : Message) : Bool :=
  shouldCompressMessage cfg now hist message.payload.length &&
    (decide ((compressData cfg oracle message.payload message.payload.length).length > 0) &&
      decide ((compressData cfg oracle message.payload message.payload.length).length
        < message.payload.length))

/-- The message `msg` actually handed to the socket by an accepted
`sendMessage` call, `zmq_wrapper.cpp` lines 105-128: when the compression
attempt is made and kept (`compressionKept`), the payload is replaced by
the compressed bytes and the `compression` field of the header is set from
`selectCompressionType` (the `size` field of the header is never modified);
otherwise the message is forwarded unchanged. -/
def framedMessage (cfg : WrapperConfig) (oracle : CompressOracle) (now : Int)
    (hist : List (Int × Nat)) (message : Message) : Message :=
  if compressionKept cfg oracle now hist message then
    { header := { message.header with
                    compression := selectCompressionType cfg message.payload.length }
      payload := compressData cfg oracle message.payload message.payload.length }
  else message

/-- Model of `ZMQWrapper::sendMessage`, `zmq_wrapper.cpp` lines 92-151, transcribed
branch by branch:
  1. not connected: error `"Cannot send message: not connected"`, no I/O;
  2. `header.size > max_message_size_`: error
     `"Message size exceeds limit"`, no I/O;
  3. optionally compress: the compression block of lines 108-128 is
     factored into `compressionKept` / `framedMessage` above; when the
     compressed form is kept, compression stats are updated;
  4. hand the header and payload frames to the socket, reporting the
     first failing segment; on full success append to the speed history.
Note that when adaptive compression is on, `getCurrentNetworkSpeed`
destructively prunes the stored history (line 211), which the `hist`
component mirrors. -/
def sendMessage (cfg : WrapperConfig) (oracle : CompressOracle) (env : SendEnv)
    (connected : Bool) (hist : List (Int × Nat)) (message : Message) : SendOutcome :=
  if ¬ connected then
    { ok := false, wire := none, errors := ["Cannot send message: not connected"],
      statsUpdates := [], hist := hist }
  else if message.header.size > cfg.maxMessageSize then
    { ok := false, wire := none, errors := ["Message size exceeds limit"],
      statsUpdates := [], hist := hist }
  else
    let originalSize := message.payload.length
    let hist1 := if cfg.adaptiveCompression then cleanupOldSpeedHistory env.now hist else hist
    let compressed := compressData cfg oracle message.payload originalSize
    let kept := compressionKept cfg oracle env.now hist message
    let msg : Message := framedMessage cfg oracle env.now hist message
    let statsUpdates := if kept then [(originalSize, compressed.length)] else []
    if ¬ env.headerOk then
      { ok := false, wire := some (msg.header, msg.payload),
        errors := ["Failed to send message header"],
        statsUpdates := statsUpdates, hist := hist1 }
    else if ¬ env.payloadOk then
      { ok := false, wire := some (msg.header, msg.payload),
        errors := ["Failed to send message payload"],
        statsUpdates := statsUpdates, hist := hist1 }
    else
      { ok := true, wire := some (msg.header, msg.payload), errors := [],
        statsUpdates := statsUpdates,
        hist := updateNetworkSpeed env.now hist1 (sizeofMessageHeader + msg.payload.length) }

/-- The mutable `ZMQWrapper` state that the worker loop reads or writes:
`connection_state_`, `connected_`, `last_heartbeat_`,
`messages_received_`, `compression_stats_.decompression_failures` and
`network_speed_history_` (`zmq_wrapper.hpp` lines 126-149). -/
structure WorkerState where
  connectionState : ConnectionState
  connected : Bool
  lastHeartbeat : Int
  messagesReceived : Nat
  decompressionFailures : Nat
  hist : List (Int × Nat)
  deriving DecidableEq, Repr

/-- Environment of one iteration of the worker loop: the clock, whether
the zmq layer throws, the socket behaviour for a heartbeat send, the
non-blocking header receive and the following payload receive. -/
structure WorkerEnv where
  now : Int
  zmqThrow : Bool
  sendHeaderOk : Bool
  sendPayloadOk : Bool
  recvHeader : Option MessageHeader
  recvPayload : Option (List Nat)

/-- Observable outcome of one worker-loop iteration: the new state, the
message delivered to `handleMessage` (the application callback), if any,
and the `handleError` invocations. -/
structure WorkerOutcome where
  state : WorkerState
  delivered : Option Message
  errors : List String

/-- One iteration of `ZMQWrapper::workerThread`, `zmq_wrapper.cpp` lines
237-306, transcribed in order:
  1. the `catch` of a zmq exception only reports an error and sleeps;
  2. when `now - last_heartbeat_ >= DEFAULT_HEARTBEAT_INTERVAL`, a
     HEARTBEAT message (`size 0`, `sequence = messages_received_`) is
     sent through `sendMessage`; `last_heartbeat_` is refreshed only on
     success;
  3. a failing non-blocking header receive just sleeps and continues;
  4. a failing payload receive reports an error and continues;
  5. an inbound message with `header.compression != NONE` is decompressed
     into a buffer of `header.size` bytes; failure (`0` bytes written)
     reports an error, increments `decompression_failures` and continues
     without delivering; success rewrites the payload and clears the
     compression field;
  6. the message is handed to the callback and `messages_received_` is
     incremented.
Note that no branch of the loop writes `connection_state_` or
`connected_`, and neither `max_reconnect_attempts_` nor
`reconnect_delay_` nor `reconnect_attempts_` is ever read. -/
def workerIteration (cfg : WrapperConfig) (co : CompressOracle) (dco : DecompressOracle)
    (env : WorkerEnv) (s : WorkerState) : WorkerOutcome :=
  if env.zmqThrow then
    { state := s, delivered := none, errors := ["Error in worker thread"] }
  else
    let hbDue := decide (env.now - s.lastHeartbeat ≥ DEFAULT_HEARTBEAT_INTERVAL)
    let hb : Message :=
      { header := { type := MessageType.HEARTBEAT, size := 0,
                    sequence := s.messagesReceived, timestamp := env.now.toNat,
                    compression := CompressionType.NONE }
        payload := [] }
    let hbOut :=
      if hbDue then
        sendMessage cfg co { now := env.now, headerOk := env.sendHeaderOk,
                             payloadOk := env.sendPayloadOk } s.connected s.hist hb
      else
        { ok := false, wire := none, errors := [], statsUpdates := [], hist := s.hist }
    let s1 : WorkerState :=
      if hbDue && hbOut.ok then { s with lastHeartbeat := env.now, hist := hbOut.hist }
      else { s with hist := hbOut.hist }
    let hbErrors := hbOut.errors
    match env.recvHeader with
    | none => { state := s1, delivered := none, errors := hbErrors }
    | some hdr =>
      match env.recvPayload with
      | none =>
        { state := s1, delivered := none,
          errors := hbErrors ++ ["Failed to receive message payload"] }
      | some pl =>
        if hdr.compression ≠ CompressionType.NONE then
          let out := decompressData cfg dco pl hdr.size
          if out.length > 0 then
            { state := { s1 with messagesReceived := s1.messagesReceived + 1 }
              delivered := some { header := { hdr with compression := CompressionType.NONE }
                                  payload := out }
              errors := hbErrors }
          else
            { state := { s1 with decompressionFailures := s1.decompressionFailures + 1 }
              delivered := none
              errors := hbErrors ++ ["Failed to decompress message"] }
        else
          { state := { s1 with messagesReceived := s1.messagesReceived + 1 }
            delivered := some { header := hdr, payload := pl }
            errors := hbErrors }

/-- The `VkResult` values the call proxy produces, `vulkan_icd.cpp`:
`VK_SUCCESS` (success path), `VK_TIMEOUT` (line 840) and
`VK_ERROR_INITIALIZATION_FAILED` (line 828). -/
inductive VkResult where
  | VK_SUCCESS | VK_TIMEOUT | VK_ERROR_INITIALIZATION_FAILED
  deriving DecidableEq, Repr

/-- The response environment of a waiting call: for each elapsed
millisecond tick and each sequence id, the result carried by a response
correlated to that sequence that has arrived by that tick (if any). -/
def ResponseEnv : Type := Nat → Nat → Option VkResult

/-- The polling loop of `VulkanICD::waitForResponse`, `vulkan_icd.cpp`
lines 837-839: `while (now - start < timeout) sleep_for(1 ms);`.  The
loop body only sleeps; it never consults the arrived responses or the
sequence id, so the recursion ignores `responses` and `sequence`. -/
def waitPoll (responses : ResponseEnv) (sequence : Nat) : Nat → VkResult
  | 0 => VkResult.VK_TIMEOUT
  | n + 1 => waitPoll responses sequence n

/-- Model of `VulkanICD::waitForResponse`, `vulkan_icd.cpp` lines 833-841: poll
for the fixed 5000 ms deadline, then return `VK_TIMEOUT`. -/
def waitForResponse (responses : ResponseEnv) (sequence : Nat) : VkResult :=
  waitPoll responses sequence 5000

/-- Model of `VulkanICD::sendCommand`, `vulkan_icd.cpp` lines 826-831: a failed
`sendMessage` is `VK_ERROR_INITIALIZATION_FAILED`, otherwise the result
of `waitForResponse` on the sequence id of the message. -/
def sendCommand (sendOk : Bool) (responses : ResponseEnv) (message : Message) : VkResult :=
  if ¬ sendOk then VkResult.VK_ERROR_INITIALIZATION_FAILED
  else waitForResponse responses message.header.sequence

/-- Association-list lookup for the registry maps (`std::map::find`). -/
def mapLookup {α : Type} (m : List (Nat × α)) (k : Nat) : Option α :=
  match m with
  | [] => none
  | (k', v) :: rest => if k' = k then some v else mapLookup rest k

/-- Association-list store for the registry maps (`std::map::operator[]`
followed by assignment: overwrite an existing binding, else append). -/
def mapInsert {α : Type} (m : List (Nat × α)) (k : Nat) (v : α) : List (Nat × α) :=
  match m with
  | [] => [(k, v)]
  | (k', v') :: rest =>
    if k' = k then (k, v) :: rest else (k', v') :: mapInsert rest k v

/-- Association-list removal for the registry maps (`std::map::erase`). -/
def mapErase {α : Type} (m : List (Nat × α)) (k : Nat) : List (Nat × α) :=
  match m with
  | [] => []
  | (k', v') :: rest =>
    if k' = k then rest else (k', v') :: mapErase rest k

/-- Model of `VulkanICD::InstanceInfo`, `vulkan_icd.hpp` lines 116-119.  Handles
are modelled as opaque `Nat` identifiers. -/
structure InstanceInfo where
  instance_ : Nat
  physicalDevices : List Nat
  deriving DecidableEq, Repr

/-- Model of `VulkanICD::DeviceInfo`, `vulkan_icd.hpp` lines 120-124. -/
structure DeviceInfo where
  device : Nat
  physicalDevice : Nat
  queues : List Nat
  deriving DecidableEq, Repr

/-- Model of `VulkanICD::SwapchainInfo`, `vulkan_icd.hpp` lines 125-129. -/
structure SwapchainInfo where
  swapchain : Nat
  device : Nat
  images : List Nat
  deriving DecidableEq, Repr

/-- Model of `VulkanICD::CommandPoolInfo`, `vulkan_icd.hpp` lines 130-133. -/
structure CommandPoolInfo where
  commandPool : Nat
  device : Nat
  deriving DecidableEq, Repr

/-- Model of `VulkanICD::CommandBufferInfo`, `vulkan_icd.hpp` lines 134-138. -/
structure CommandBufferInfo where
  commandBuffer : Nat
  commandPool : Nat
  device : Nat
  deriving DecidableEq, Repr

/-- The five per-category registry maps of `VulkanICD`,
`vulkan_icd.hpp` lines 140-144. -/
structure ICDState where
  instances : List (Nat × InstanceInfo)
  devices : List (Nat × DeviceInfo)
  swapchains : List (Nat × SwapchainInfo)
  commandPools : List (Nat × CommandPoolInfo)
  commandBuffers : List (Nat × CommandBufferInfo)
  deriving DecidableEq, Repr

/-- Registry effect of `VulkanICD::vkCreateInstance`, `vulkan_icd.cpp`
lines 27-47: on `VK_SUCCESS` store an `InstanceInfo` for `*pInstance`.
The `VkResult` that `sendCommand` produces is passed as the environment
parameter `result` (the response machinery is settled separately). -/
def vkCreateInstance (s : ICDState) (result : VkResult) (pInstance : Nat) : ICDState :=
  if result = VkResult.VK_SUCCESS then
    { s with
      instances := mapInsert s.instances pInstance
                     { instance_ := pInstance, physicalDevices := [] } }
  else s

/-- Registry effect of `VulkanICD::vkDestroyInstance`, `vulkan_icd.cpp`
lines 49-66: after sending the destroy command (result ignored), erase
the handle from `instances_` only; no other category map is touched. -/
def vkDestroyInstance (s : ICDState) (instance_ : Nat) : ICDState :=
  { s with instances := mapErase s.instances instance_ }

/-- Registry effect of `VulkanICD::vkCreateDevice`, `vulkan_icd.cpp`
lines 96-126: on `VK_SUCCESS` store a `DeviceInfo` for `*pDevice`
recording its physical device. -/
def vkCreateDevice (s : ICDState) (result : VkResult)
    (physicalDevice pDevice : Nat) : ICDState :=
  if result = VkResult.VK_SUCCESS then
    { s with
      devices := mapInsert s.devices pDevice
                   { device := pDevice, physicalDevice := physicalDevice, queues := [] } }
  else s

/-- Registry effect of `VulkanICD::vkDestroyDevice`, `vulkan_icd.cpp`
lines 128-145: erase the handle from `devices_` only. -/
def vkDestroyDevice (s : ICDState) (device : Nat) : ICDState :=
  { s with devices := mapErase s.devices device }

/-- A heap of byte buffers, identified by allocation order: `next` is the
next fresh identifier, `live` the identifiers whose storage is still
allocated.  Used to track the lifetime of the buffers involved in
`vkMapMemory`. -/
structure Heap where
  next : Nat
  live : List Nat
  deriving DecidableEq, Repr

/-- Observable outcome of `VulkanICD::vkMapMemory`: the returned
`VkResult`, the buffer the written `*ppData` pointer refers to (`none`
when the pointer was not written), and the heap after the call has
returned. -/
structure MapMemoryOutcome where
  result : VkResult
  ppData : Option Nat
  heap : Heap
  deriving DecidableEq, Repr

/-- Model of `VulkanICD::vkMapMemory`, `vulkan_icd.cpp` lines 514-546, with buffer
lifetimes made explicit: the function constructs a local `Message`
(line 533) whose `payload` vector is a fresh allocation living only for
the duration of the call; on `VK_SUCCESS`, line 543 executes
`*ppData = message.payload.data();`, a pointer into that payload buffer;
when the function returns, the local `Message` is destroyed and its
payload storage deallocated.  The `VkResult` of `sendCommand` is the
environment parameter `result`. -/
def vkMapMemory (h : Heap) (result : VkResult) : MapMemoryOutcome :=
  let payloadBuf := h.next
  let hDuring : Heap := { next := h.next + 1, live := payloadBuf :: h.live }
  let ptr : Option Nat := if result = VkResult.VK_SUCCESS then some payloadBuf else none
  let hAfter : Heap :=
    { hDuring with live := hDuring.live.filter (fun b => b ≠ payloadBuf) }
  { result := result, ppData := ptr, heap := hAfter }

theorem waitPoll_eq_timeout (responses : ResponseEnv) (sequence : Nat) :
    ∀ n, waitPoll responses sequence n = VkResult.VK_TIMEOUT := by
  intro n
  induction n with
  | zero => rfl
  | succ k ih => simpa [waitPoll] using ih

theorem selectCompressionType_ne_NONE (cfg : WrapperConfig) (messageSize : Nat) :
    selectCompressionType cfg messageSize ≠ CompressionType.NONE := by
  unfold selectCompressionType
  split
  · assumption
  · split <;> simp

/-- C6: `ZMQWrapper` compresses a message only when its size strictly
exceeds 1024 bytes, and, when adaptive compression is enabled,
additionally only when the estimated current network throughput is less
than ten times the message size; with adaptive compression disabled the
size threshold alone decides. -/
theorem shouldCompress_iff_size_and_bandwidth_gate (cfg : WrapperConfig) (now : Int)
    (hist : List (Int × Nat)) (messageSize : Nat) :
    shouldCompressMessage cfg now hist messageSize = true ↔
      (1024 < messageSize ∧
        (cfg.adaptiveCompression = true →
          getCurrentNetworkSpeed now hist < messageSize * 10)) := by
  unfold shouldCompressMessage
  by_cases h : cfg.adaptiveCompression <;> simp [h]

/-- C10: the throughput estimate `getCurrentNetworkSpeed` is the plain
sum of the byte counts of the recorded sends whose timestamps lie within
the trailing one-second window (older samples are discarded first); it
is a windowed total, not an average over any other period. -/
theorem network_speed_is_trailing_window_byte_sum (now : Int) (hist : List (Int × Nat)) :
    getCurrentNetworkSpeed now hist =
      ((hist.filter (fun s => decide (now - 1000 ≤ s.1))).map Prod.snd).sum := by
  unfold getCurrentNetworkSpeed cleanupOldSpeedHistory
  have hcong : ∀ m : Int × Nat,
      (decide (¬ (m.1 < now - 1000))) = decide (now - 1000 ≤ m.1) := by
    intro m
    simp [Int.not_lt]
  rw [List.filter_congr (fun m _ => hcong m)]

/-- C1 (code defect): `VulkanICD::sendCommand` never returns the result
of a correlated response: `waitForResponse` sleeps through the whole
5-second deadline without ever consulting the arrived responses, and
then reports `VK_TIMEOUT` — for every response environment, including
one in which a response correlated to the sequence id of the command arrived
immediately, a successfully sent command yields `VK_TIMEOUT`. -/
theorem sendCommand_times_out_despite_correlated_response
    (responses : ResponseEnv) (message : Message) :
    sendCommand true responses message = VkResult.VK_TIMEOUT := by
  simp [sendCommand, waitForResponse, waitPoll_eq_timeout]

/-- C5 (code defect): no iteration of `ZMQWrapper::workerThread` ever
changes `connection_state_` or `connected_`: in particular the state
never moves from `CONNECTED` to `RECONNECTING` after a connection loss,
and no reconnection attempt is ever performed (the declared
`max_reconnect_attempts_` and `reconnect_delay_` members are never
read). -/
theorem workerIteration_never_changes_connection_state
    (cfg : WrapperConfig) (co : CompressOracle) (dco : DecompressOracle)
    (env : WorkerEnv) (s : WorkerState) :
    (workerIteration cfg co dco env s).state.connectionState = s.connectionState ∧
    (workerIteration cfg co dco env s).state.connected = s.connected := by
  unfold workerIteration
  dsimp only
  constructor <;>
    (repeat first
      | rfl
      | split)

/-- C9 (code defect): on the success path `VulkanICD::vkMapMemory` sets
`*ppData` to `message.payload.data()`, a pointer into the payload buffer
of the function-local `Message`; that buffer is deallocated when the
call returns, so the caller receives a pointer to storage that is no
longer live — not a copy in a caller-owned buffer. -/
theorem vkMapMemory_returns_pointer_into_dead_message_buffer (h : Heap) :
    (vkMapMemory h VkResult.VK_SUCCESS).ppData = some h.next ∧
    h.next ∉ (vkMapMemory h VkResult.VK_SUCCESS).heap.live := by
  unfold vkMapMemory
  refine ⟨rfl, ?_⟩
  simp [List.mem_filter]

/-- C7: when an inbound message whose header names a compression codec
fails to decompress (the decompressor writes 0 bytes), the worker loop
increments the `decompression_failures` counter and drops the message:
the application message callback is not invoked for it, and the loop
proceeds to the next iteration. -/
theorem decompression_failure_increments_counter_and_drops
    (cfg : WrapperConfig) (co : CompressOracle) (dco : DecompressOracle)
    (env : WorkerEnv) (s : WorkerState) (hdr : MessageHeader) (pl : List Nat)
    (hthrow : env.zmqThrow = false)
    (hhdr : env.recvHeader = some hdr)
    (hpl : env.recvPayload = some pl)
    (hcomp : hdr.compression ≠ CompressionType.NONE)
    (hfail : (decompressData cfg dco pl hdr.size).length = 0) :
    (workerIteration cfg co dco env s).state.decompressionFailures
        = s.decompressionFailures + 1 ∧
    (workerIteration cfg co dco env s).delivered = none := by
  unfold workerIteration
  dsimp only
  simp only [hthrow, Bool.false_eq_true, if_false, hhdr, hpl]
  rw [if_pos hcomp, if_neg (by omega)]
  constructor <;>
    (repeat first
      | rfl
      | split)

theorem decompression_failure_witness :
    ((⟨MessageType.FRAME_DATA, 3, 1, 0, CompressionType.ZLIB⟩ :
        MessageHeader).compression ≠ CompressionType.NONE) ∧
    ((decompressData defaultConfig (fun _ _ _ => []) [1, 2, 3] 3).length = 0) ∧
    ((workerIteration defaultConfig (fun _ _ _ _ => []) (fun _ _ _ => [])
        ⟨0, false, true, true,
          some ⟨MessageType.FRAME_DATA, 3, 1, 0, CompressionType.ZLIB⟩,
          some [1, 2, 3]⟩
        ⟨ConnectionState.CONNECTED, true, 0, 0, 0, []⟩).state.decompressionFailures
      = 0 + 1) ∧
    ((workerIteration defaultConfig (fun _ _ _ _ => []) (fun _ _ _ => [])
        ⟨0, false, true, true,
          some ⟨MessageType.FRAME_DATA, 3, 1, 0, CompressionType.ZLIB⟩,
          some [1, 2, 3]⟩
        ⟨ConnectionState.CONNECTED, true, 0, 0, 0, []⟩).delivered = none) := by
  have h := decompression_failure_increments_counter_and_drops
    defaultConfig (fun _ _ _ _ => []) (fun _ _ _ => [])
    ⟨0, false, true, true,
      some ⟨MessageType.FRAME_DATA, 3, 1, 0, CompressionType.ZLIB⟩,
      some [1, 2, 3]⟩
    ⟨ConnectionState.CONNECTED, true, 0, 0, 0, []⟩
    ⟨MessageType.FRAME_DATA, 3, 1, 0, CompressionType.ZLIB⟩ [1, 2, 3]
    rfl rfl rfl (by decide) rfl
  exact ⟨by decide, rfl, h.1, h.2⟩

theorem mapLookup_mapInsert_self {α : Type} (m : List (Nat × α)) (k : Nat) (v : α) :
    mapLookup (mapInsert m k v) k = some v := by
  induction m with
  | nil => simp [mapInsert, mapLookup]
  | cons hd tl ih =>
    obtain ⟨k', v'⟩ := hd
    by_cases hk : k' = k
    · simp [mapInsert, mapLookup, hk]
    · simp [mapInsert, mapLookup, hk, ih]

theorem mapLookup_eq_none_of_notMem_keys {α : Type} (m : List (Nat × α)) (k : Nat)
    (h : k ∉ m.map Prod.fst) : mapLookup m k = none := by
  induction m with
  | nil => rfl
  | cons hd tl ih =>
    obtain ⟨k', v'⟩ := hd
    simp only [List.map_cons, List.mem_cons] at h
    push_neg at h
    have hne : ¬ k' = k := fun hkk => h.1 hkk.symm
    simp [mapLookup, hne, ih h.2]

theorem mapLookup_mapErase_mapInsert {α : Type} (m : List (Nat × α)) (k : Nat) (v : α)
    (h : (m.map Prod.fst).Nodup) : mapLookup (mapErase (mapInsert m k v) k) k = none := by
  induction m with
  | nil => simp [mapInsert, mapErase, mapLookup]
  | cons hd tl ih =>
    obtain ⟨k', v'⟩ := hd
    simp only [List.map_cons, List.nodup_cons] at h
    by_cases hk : k' = k
    · subst hk
      simp only [mapInsert, if_pos rfl, mapErase, if_pos rfl]
      exact mapLookup_eq_none_of_notMem_keys tl k' h.1
    · simp only [mapInsert, mapErase, mapLookup, if_neg hk]
      exact ih h.2

/-- C8: destroying an Instance erases only the `instances_` category of
the client registry: after create Instance, create Device, destroy
Instance, the `devices_` map (and every other category map) is exactly
what it was before the destroy, the entry of the Device is still addressable
by lookup, and it disappears only when `vkDestroyDevice` erases it.  The
`VkResult` values produced by `sendCommand` for the two creates are
environment parameters; the device category is assumed to have unique
keys, as `std::unordered_map` guarantees. -/
theorem destroy_instance_leaves_device_registry_untouched
    (s : ICDState) (r1 r2 : VkResult) (hInst hDev pd : Nat)
    (hr2 : r2 = VkResult.VK_SUCCESS)
    (hnodup : (s.devices.map Prod.fst).Nodup) :
    (vkDestroyInstance (vkCreateDevice (vkCreateInstance s r1 hInst) r2 pd hDev) hInst).devices
        = (vkCreateDevice (vkCreateInstance s r1 hInst) r2 pd hDev).devices ∧
    (vkDestroyInstance (vkCreateDevice (vkCreateInstance s r1 hInst) r2 pd hDev) hInst).swapchains
        = (vkCreateDevice (vkCreateInstance s r1 hInst) r2 pd hDev).swapchains ∧
    (vkDestroyInstance (vkCreateDevice (vkCreateInstance s r1 hInst) r2 pd hDev) hInst).commandPools
        = (vkCreateDevice (vkCreateInstance s r1 hInst) r2 pd hDev).commandPools ∧
    (vkDestroyInstance (vkCreateDevice (vkCreateInstance s r1 hInst) r2 pd hDev) hInst).commandBuffers
        = (vkCreateDevice (vkCreateInstance s r1 hInst) r2 pd hDev).commandBuffers ∧
    mapLookup
        (vkDestroyInstance (vkCreateDevice (vkCreateInstance s r1 hInst) r2 pd hDev) hInst).devices
        hDev
      = some { device := hDev, physicalDevice := pd, queues := [] } ∧
    mapLookup
        (vkDestroyDevice
          (vkDestroyInstance (vkCreateDevice (vkCreateInstance s r1 hInst) r2 pd hDev) hInst)
          hDev).devices
        hDev
      = none := by
  subst hr2
  unfold vkCreateInstance vkCreateDevice vkDestroyInstance vkDestroyDevice
  dsimp only
  by_cases hr1 : r1 = VkResult.VK_SUCCESS <;>
    simp [hr1, mapLookup_mapInsert_self,
      mapLookup_mapErase_mapInsert s.devices hDev _ hnodup]

theorem destroy_instance_witness :
    (VkResult.VK_SUCCESS = VkResult.VK_SUCCESS) ∧
    ((([] : List (Nat × DeviceInfo)).map Prod.fst).Nodup) ∧
    (mapLookup
        (vkDestroyInstance
          (vkCreateDevice (vkCreateInstance ⟨[], [], [], [], []⟩ VkResult.VK_SUCCESS 1)
            VkResult.VK_SUCCESS 7 2) 1).devices 2
      = some { device := 2, physicalDevice := 7, queues := [] }) ∧
    (mapLookup
        (vkDestroyDevice
          (vkDestroyInstance
            (vkCreateDevice (vkCreateInstance ⟨[], [], [], [], []⟩ VkResult.VK_SUCCESS 1)
              VkResult.VK_SUCCESS 7 2) 1) 2).devices 2
      = none) := by
  have h := destroy_instance_leaves_device_registry_untouched
    ⟨[], [], [], [], []⟩ VkResult.VK_SUCCESS VkResult.VK_SUCCESS 1 2 7 rfl (by simp)
  exact ⟨rfl, by simp, h.2.2.2.2.1, h.2.2.2.2.2⟩

theorem sendMessage_wire_of_accepted (cfg : WrapperConfig) (oracle : CompressOracle)
    (env : SendEnv) (hist : List (Int × Nat)) (message : Message)
    (hsize : ¬ message.header.size > cfg.maxMessageSize) :
    (sendMessage cfg oracle env true hist message).wire =
      some ((framedMessage cfg oracle env.now hist message).header,
            (framedMessage cfg oracle env.now hist message).payload) := by
  unfold sendMessage
  rw [if_neg (by simp), if_neg hsize]
  dsimp only
  repeat first
    | rfl
    | split

theorem selectCompressionType_eq_appliedCodec (cfg : WrapperConfig) (n : Nat)
    (hsmall : cfg.compressionType ≠ CompressionType.NONE ∨ n < 1024 * 1024) :
    selectCompressionType cfg n = appliedCodec cfg := by
  unfold selectCompressionType appliedCodec
  cases hct : cfg.compressionType
  · rcases hsmall with hpin | hn
    · exact absurd hct hpin
    · simp [hn]
  · simp
  · simp

/-- C3: a connected `sendMessage` call whose `header.size` exceeds the
configured maximum returns `false`, performs no socket I/O (the frame is
never handed to the socket), and invokes the error callback exactly once,
with a message containing "exceeds limit". -/
theorem oversized_send_rejected_before_io
    (cfg : WrapperConfig) (oracle : CompressOracle) (env : SendEnv)
    (hist : List (Int × Nat)) (message : Message)
    (hbig : message.header.size > cfg.maxMessageSize) :
    (sendMessage cfg oracle env true hist message).ok = false ∧
    (sendMessage cfg oracle env true hist message).wire = none ∧
    (sendMessage cfg oracle env true hist message).errors
        = ["Message size exceeds limit"] ∧
    List.IsInfix "exceeds limit".toList "Message size exceeds limit".toList := by
  unfold sendMessage
  rw [if_neg (by simp), if_pos hbig]
  exact ⟨rfl, rfl, rfl, "Message size ".toList, [], by decide⟩

theorem oversized_send_witness :
    ((⟨⟨MessageType.FRAME_DATA, 1024 * 1024 * 100 + 1, 1, 0, CompressionType.NONE⟩, []⟩ :
        Message).header.size > defaultConfig.maxMessageSize) ∧
    ((sendMessage defaultConfig (fun _ _ _ _ => []) ⟨0, true, true⟩ true []
        ⟨⟨MessageType.FRAME_DATA, 1024 * 1024 * 100 + 1, 1, 0, CompressionType.NONE⟩, []⟩).ok
      = false) ∧
    ((sendMessage defaultConfig (fun _ _ _ _ => []) ⟨0, true, true⟩ true []
        ⟨⟨MessageType.FRAME_DATA, 1024 * 1024 * 100 + 1, 1, 0, CompressionType.NONE⟩, []⟩).wire
      = none) ∧
    ((sendMessage defaultConfig (fun _ _ _ _ => []) ⟨0, true, true⟩ true []
        ⟨⟨MessageType.FRAME_DATA, 1024 * 1024 * 100 + 1, 1, 0, CompressionType.NONE⟩,
          []⟩).errors
      = ["Message size exceeds limit"]) := by
  have h := oversized_send_rejected_before_io defaultConfig (fun _ _ _ _ => [])
    ⟨0, true, true⟩ []
    ⟨⟨MessageType.FRAME_DATA, 1024 * 1024 * 100 + 1, 1, 0, CompressionType.NONE⟩, []⟩
    (by decide)
  exact ⟨by decide, h.1, h.2.1, h.2.2.1⟩

/-- C4: for every message `sendMessage` hands to the socket, the payload
is the compressed form only if the compressor succeeded (wrote more than
0 bytes) and its output is strictly smaller than the original payload;
in every other case the transmitted header still says `NONE` and the
transmitted payload is byte-identical to the original. -/
theorem compression_kept_only_if_strictly_smaller
    (cfg : WrapperConfig) (oracle : CompressOracle) (env : SendEnv)
    (connected : Bool) (hist : List (Int × Nat)) (message : Message)
    (hNone : message.header.compression = CompressionType.NONE) :
    ∀ h p, (sendMessage cfg oracle env connected hist message).wire = some (h, p) →
      (h.compression ≠ CompressionType.NONE →
        0 < (compressData cfg oracle message.payload message.payload.length).length ∧
        (compressData cfg oracle message.payload message.payload.length).length
            < message.payload.length ∧
        p = compressData cfg oracle message.payload message.payload.length) ∧
      (h.compression = CompressionType.NONE →
        h = message.header ∧ p = message.payload) := by
  intro h p hw
  by_cases hconn : connected = true
  case neg =>
    have hfalse : connected = false := by
      revert hconn
      cases connected <;> simp
    subst hfalse
    unfold sendMessage at hw
    simp at hw
  subst hconn
  by_cases hsize : message.header.size > cfg.maxMessageSize
  · unfold sendMessage at hw
    rw [if_neg (by simp), if_pos hsize] at hw
    simp at hw
  · rw [sendMessage_wire_of_accepted cfg oracle env hist message hsize] at hw
    simp only [Option.some.injEq, Prod.mk.injEq] at hw
    obtain ⟨hh, hp⟩ := hw
    subst hh
    subst hp
    unfold framedMessage
    split
    · next hkept =>
        unfold compressionKept at hkept
        simp only [Bool.and_eq_true, decide_eq_true_eq] at hkept
        refine ⟨fun _ => ⟨hkept.2.1, hkept.2.2, rfl⟩, fun hcontra => ?_⟩
        exact absurd hcontra (selectCompressionType_ne_NONE cfg message.payload.length)
    · next hkept =>
        exact ⟨fun hne => absurd hNone hne, fun _ => ⟨rfl, rfl⟩⟩

theorem compression_kept_witness :
    ((⟨⟨MessageType.FRAME_DATA, 3, 1, 0, CompressionType.NONE⟩, [1, 2, 3]⟩ :
        Message).header.compression = CompressionType.NONE) ∧
    (((⟨MessageType.FRAME_DATA, 3, 1, 0, CompressionType.NONE⟩ : MessageHeader).compression
        ≠ CompressionType.NONE →
      0 < (compressData defaultConfig (fun _ _ _ _ => []) [1, 2, 3] 3).length ∧
      (compressData defaultConfig (fun _ _ _ _ => []) [1, 2, 3] 3).length < 3 ∧
      [1, 2, 3] = compressData defaultConfig (fun _ _ _ _ => []) [1, 2, 3] 3) ∧
     ((⟨MessageType.FRAME_DATA, 3, 1, 0, CompressionType.NONE⟩ : MessageHeader).compression
        = CompressionType.NONE →
      (⟨MessageType.FRAME_DATA, 3, 1, 0, CompressionType.NONE⟩ : MessageHeader)
          = (⟨⟨MessageType.FRAME_DATA, 3, 1, 0, CompressionType.NONE⟩, [1, 2, 3]⟩ :
              Message).header ∧
      [1, 2, 3] = (⟨⟨MessageType.FRAME_DATA, 3, 1, 0, CompressionType.NONE⟩, [1, 2, 3]⟩ :
              Message).payload)) := by
  have h := compression_kept_only_if_strictly_smaller defaultConfig (fun _ _ _ _ => [])
    ⟨0, true, true⟩ true []
    ⟨⟨MessageType.FRAME_DATA, 3, 1, 0, CompressionType.NONE⟩, [1, 2, 3]⟩ rfl
    ⟨MessageType.FRAME_DATA, 3, 1, 0, CompressionType.NONE⟩ [1, 2, 3] (by decide)
  exact ⟨rfl, h⟩

/-- C2 fails on the code: with an unpinned codec (`compression_type_ ==
NONE`) and a 1 MiB payload whose compression is kept, the transmitted
transmitted `compression` header field names LZ4 (`selectCompressionType`), yet
the codec that actually ran on the payload bytes is ZLIB
(`compressData` dispatches on `compression_type_ == LZ4` only).
Moreover `sendMessage` never writes `header.size`, so an accepted
message whose caller-set `size` (0) differs from its uncompressed
payload length (5) is transmitted with that wrong size. -/
theorem header_codec_and_size_counterexample :
    ((sendMessage ⟨CompressionType.NONE, CompressionLevel.BALANCED, false, MAX_MESSAGE_SIZE⟩
        (fun _ _ _ _ => List.replicate 100 0) ⟨0, true, true⟩ true []
        ⟨⟨MessageType.FRAME_DATA, 1024 * 1024, 1, 0, CompressionType.NONE⟩,
          List.replicate (1024 * 1024) 0⟩).wire.map (fun w => w.1.compression)
      = some CompressionType.LZ4) ∧
    ((sendMessage ⟨CompressionType.NONE, CompressionLevel.BALANCED, false, MAX_MESSAGE_SIZE⟩
        (fun _ _ _ _ => List.replicate 100 0) ⟨0, true, true⟩ true []
        ⟨⟨MessageType.FRAME_DATA, 1024 * 1024, 1, 0, CompressionType.NONE⟩,
          List.replicate (1024 * 1024) 0⟩).wire.map (fun w => w.2)
      = some (List.replicate 100 0)) ∧
    (appliedCodec ⟨CompressionType.NONE, CompressionLevel.BALANCED, false, MAX_MESSAGE_SIZE⟩
      = CompressionType.ZLIB) ∧
    (CompressionType.LZ4 ≠ CompressionType.ZLIB) ∧
    ((sendMessage defaultConfig (fun _ _ _ _ => List.replicate 100 0) ⟨0, true, true⟩ true []
        ⟨⟨MessageType.FRAME_DATA, 0, 1, 0, CompressionType.NONE⟩, [9, 9, 9, 9, 9]⟩).ok
      = true) ∧
    ((sendMessage defaultConfig (fun _ _ _ _ => List.replicate 100 0) ⟨0, true, true⟩ true []
        ⟨⟨MessageType.FRAME_DATA, 0, 1, 0, CompressionType.NONE⟩, [9, 9, 9, 9, 9]⟩).wire.map
          (fun w => w.1.size)
      = some 0) ∧
    ((sendMessage defaultConfig (fun _ _ _ _ => List.replicate 100 0) ⟨0, true, true⟩ true []
        ⟨⟨MessageType.FRAME_DATA, 0, 1, 0, CompressionType.NONE⟩, [9, 9, 9, 9, 9]⟩).wire.map
          (fun w => w.2.length)
      = some 5) := by
  have hwire := sendMessage_wire_of_accepted
    ⟨CompressionType.NONE, CompressionLevel.BALANCED, false, MAX_MESSAGE_SIZE⟩
    (fun _ _ _ _ => List.replicate 100 0) ⟨0, true, true⟩ []
    ⟨⟨MessageType.FRAME_DATA, 1024 * 1024, 1, 0, CompressionType.NONE⟩,
      List.replicate (1024 * 1024) 0⟩ (by decide)
  have hkept : compressionKept
      ⟨CompressionType.NONE, CompressionLevel.BALANCED, false, MAX_MESSAGE_SIZE⟩
      (fun _ _ _ _ => List.replicate 100 0) 0 []
      ⟨⟨MessageType.FRAME_DATA, 1024 * 1024, 1, 0, CompressionType.NONE⟩,
        List.replicate (1024 * 1024) 0⟩ = true := by
    unfold compressionKept shouldCompressMessage compressData
    simp only [List.length_replicate]
    decide
  have hframe : framedMessage
      ⟨CompressionType.NONE, CompressionLevel.BALANCED, false, MAX_MESSAGE_SIZE⟩
      (fun _ _ _ _ => List.replicate 100 0) 0 []
      ⟨⟨MessageType.FRAME_DATA, 1024 * 1024, 1, 0, CompressionType.NONE⟩,
        List.replicate (1024 * 1024) 0⟩
      = ⟨⟨MessageType.FRAME_DATA, 1024 * 1024, 1, 0, CompressionType.LZ4⟩,
          List.replicate 100 0⟩ := by
    unfold framedMessage
    rw [if_pos hkept]
    unfold selectCompressionType compressData
    simp only [List.length_replicate]
    decide
  refine ⟨?_, ?_, by decide, by decide, by decide, by decide, by decide⟩ <;>
    rw [hwire, hframe] <;> rfl

/-- C2 as amended: for every message accepted by `sendMessage` whose
caller set `header.size` to the payload length (the code never writes
the field itself) and `header.compression` to `NONE`, the transmitted
transmitted `size` equals the uncompressed payload length, and the
transmitted `compression` field names the codec actually applied — or
`NONE` when no compression was kept — provided the configured codec is
pinned (not `NONE`) or the payload is smaller than 1 MiB; for unpinned
payloads of at least 1 MiB the header records LZ4 although ZLIB ran
(see the counterexample). -/
theorem header_size_and_codec_amended
    (cfg : WrapperConfig) (oracle : CompressOracle) (env : SendEnv)
    (hist : List (Int × Nat)) (message : Message)
    (hsz : message.header.size = message.payload.length)
    (hNone : message.header.compression = CompressionType.NONE)
    (hsmall : cfg.compressionType ≠ CompressionType.NONE ∨
      message.payload.length < 1024 * 1024) :
    ∀ h p, (sendMessage cfg oracle env true hist message).wire = some (h, p) →
      h.size = message.payload.length ∧
      (h.compression = CompressionType.NONE → p = message.payload) ∧
      (h.compression ≠ CompressionType.NONE →
        h.compression = appliedCodec cfg ∧
        p.length < message.payload.length ∧
        p = compressData cfg oracle message.payload message.payload.length) := by
  intro h p hw
  by_cases hsize : message.header.size > cfg.maxMessageSize
  · unfold sendMessage at hw
    rw [if_neg (by simp), if_pos hsize] at hw
    simp at hw
  · rw [sendMessage_wire_of_accepted cfg oracle env hist message hsize] at hw
    simp only [Option.some.injEq, Prod.mk.injEq] at hw
    obtain ⟨hh, hp⟩ := hw
    subst hh
    subst hp
    unfold framedMessage
    split
    · next hkept =>
        unfold compressionKept at hkept
        simp only [Bool.and_eq_true, decide_eq_true_eq] at hkept
        refine ⟨hsz, fun hcontra => ?_, fun _ => ?_⟩
        · exact absurd hcontra (selectCompressionType_ne_NONE cfg message.payload.length)
        · exact ⟨selectCompressionType_eq_appliedCodec cfg message.payload.length hsmall,
            hkept.2.2, rfl⟩
    · next hkept =>
        exact ⟨hsz, fun _ => rfl, fun hne => absurd hNone hne⟩

set_option maxRecDepth 100000 in
theorem header_size_and_codec_witness :
    ((⟨⟨MessageType.FRAME_DATA, 1025, 1, 0, CompressionType.NONE⟩,
        List.replicate 1025 7⟩ : Message).header.size = (List.replicate 1025 7).length) ∧
    (defaultConfig.compressionType ≠ CompressionType.NONE ∨
      (List.replicate 1025 7).length < 1024 * 1024) ∧
    ((⟨MessageType.FRAME_DATA, 1025, 1, 0, CompressionType.ZLIB⟩ : MessageHeader).size
        = (List.replicate 1025 7).length ∧
      ((⟨MessageType.FRAME_DATA, 1025, 1, 0, CompressionType.ZLIB⟩ :
          MessageHeader).compression = CompressionType.NONE →
        List.replicate 100 0 = (⟨⟨MessageType.FRAME_DATA, 1025, 1, 0, CompressionType.NONE⟩,
          List.replicate 1025 7⟩ : Message).payload) ∧
      ((⟨MessageType.FRAME_DATA, 1025, 1, 0, CompressionType.ZLIB⟩ :
          MessageHeader).compression ≠ CompressionType.NONE →
        (⟨MessageType.FRAME_DATA, 1025, 1, 0, CompressionType.ZLIB⟩ :
            MessageHeader).compression = appliedCodec defaultConfig ∧
        (List.replicate 100 0).length
            < (⟨⟨MessageType.FRAME_DATA, 1025, 1, 0, CompressionType.NONE⟩,
                List.replicate 1025 7⟩ : Message).payload.length ∧
        List.replicate 100 0 = compressData defaultConfig
          (fun _ _ _ _ => List.replicate 100 0)
          (⟨⟨MessageType.FRAME_DATA, 1025, 1, 0, CompressionType.NONE⟩,
            List.replicate 1025 7⟩ : Message).payload
          (⟨⟨MessageType.FRAME_DATA, 1025, 1, 0, CompressionType.NONE⟩,
            List.replicate 1025 7⟩ : Message).payload.length)) := by
  have h := header_size_and_codec_amended defaultConfig
    (fun _ _ _ _ => List.replicate 100 0) ⟨0, true, true⟩ []
    ⟨⟨MessageType.FRAME_DATA, 1025, 1, 0, CompressionType.NONE⟩, List.replicate 1025 7⟩
    (by simp only [List.length_replicate]) rfl (Or.inl (by decide))
    ⟨MessageType.FRAME_DATA, 1025, 1, 0, CompressionType.ZLIB⟩ (List.replicate 100 0)
    (by decide)
  refine ⟨by simp only [List.length_replicate], Or.inl (by decide), ?_⟩
  have hlen : (List.replicate 1025 7).length
      = (⟨⟨MessageType.FRAME_DATA, 1025, 1, 0, CompressionType.NONE⟩,
          List.replicate 1025 7⟩ : Message).payload.length := rfl
  exact ⟨h.1, h.2.1, h.2.2⟩
